import Mathlib

/-!
Verification of the compress post-processor (post-processor/compress/post-processor.go).

The Go code is shallowly embedded: the pure filename classifier is translated
directly; the stateful PostProcess pipeline is embedded as a pure function that
records its externally visible effects (directory creation, output-file
creation, writer construction, input opens, copies) as an ordered event trace
together with its result.  External collaborators (config decoding, template
interpolation, the operating system, the UI sink) are modelled as succeeding,
since the claims under study concern the control flow of the core itself.
Machine integers are modelled as Int (no overflow is reachable at the values
involved).  Go errors are values compared by identity; the embedding separates
the package-level sentinel error values from freshly formatted fmt.Errorf
values so that identity comparisons are faithful.
-/

deriving instance DecidableEq for Except

namespace Compress

/-- Character class of the Go regex `(?:\.([a-z0-9]+))` capture group. -/
def isTokenChar (c : Char) : Bool :=
  (decide ('a' ≤ c) && decide (c ≤ 'z')) || (decide ('0' ≤ c) && decide (c ≤ '9'))

/-- Fueled scanner for `filenamePattern.FindAllStringSubmatch(s, -1)`: walks the
string left to right; at each literal dot followed by a non-empty maximal run of
[a-z0-9] characters it emits that run as a token and resumes after the run
(non-overlapping leftmost matches, greedy +), otherwise advances one character.
Fuel equal to the list length suffices since every step consumes at least one
character. -/
def scanTokensAux : Nat → List Char → List String
  | 0, _ => []
  | _ + 1, [] => []
  | fuel + 1, c :: rest =>
    if c = '.' then
      match rest.takeWhile isTokenChar with
      | [] => scanTokensAux fuel rest
      | run => String.mk run :: scanTokensAux fuel (rest.dropWhile isTokenChar)
    else scanTokensAux fuel rest

/-- All capture-group tokens of `filenamePattern` in the given character list. -/
def scanTokens (s : List Char) : List String :=
  scanTokensAux s.length s

/-- Configuration record of the post-processor (post-processor.go, type Config).
OutputPath, Format and CompressionLevel come from the user configuration;
Archive and Algorithm are the derived fields populated by detectFromFilename
(Go zero value: the empty string, meaning none).  The interpolation context is
external and omitted. -/
structure Config where
  OutputPath : String
  Format : String
  CompressionLevel : Int
  Archive : String
  Algorithm : String
deriving DecidableEq

/-- String handed to the token scan in detectFromFilename: the output path
itself when Format is empty, else OutputPath "." Format (fmt.Sprintf "%s.%s"). -/
def scanString (outputPath format : String) : String :=
  if format = "" then outputPath else outputPath ++ "." ++ format

/-- Extension table of detectFromFilename (Go map from suffix to algorithm). -/
def extensions (s : String) : Option String :=
  if s = "tar" then some "tar"
  else if s = "zip" then some "zip"
  else if s = "gz" then some "pgzip"
  else if s = "lz4" then some "lz4"
  else if s = "bgzf" then some "bgzf"
  else if s = "xz" then some "xz"
  else if s = "bzip2" then some "bzip2"
  else none

/-- Direct translation of (config *Config) detectFromFilename(): scans the
combined name, inspects the last and next-to-last dot tokens and fills in the
derived Archive and Algorithm fields. -/
def detectFromFilename (config : Config) : Config :=
  let result := scanTokens (scanString config.OutputPath config.Format).data
  if result = [] then
    { config with Algorithm := "pgzip", Archive := "tar" }
  else
    let lastItem := result.getLastD ""
    let nextToLastItem := if result.length = 1 then "" else result.getD (result.length - 2) ""
    let config2 := if nextToLastItem = "tar" then { config with Archive := "tar" } else config
    if lastItem = "zip" ∨ lastItem = "tar" then
      { config2 with Archive := lastItem }
    else
      match extensions lastItem with
      | some algorithm => { config2 with Algorithm := algorithm }
      | none => { config2 with Algorithm := "pgzip", Archive := "tar" }

/-- Classifier contract of the spec: run detectFromFilename on a fresh Config
(derived fields at their Go zero value, the empty string, meaning none) and
return the (archiveKind, compressionKind) pair. -/
def classify (outputPath format : String) : String × String :=
  let c := detectFromFilename
    { OutputPath := outputPath, Format := format, CompressionLevel := 0,
      Archive := "", Algorithm := "" }
  (c.Archive, c.Algorithm)

/-- Go error values.  Package-level sentinel errors (created once by
fmt.Errorf in the var block) are compared by identity in Go, so they are kept
apart from dynamically formatted fmt.Errorf values; both carry their message. -/
inductive GoError where
  | sentinel (name msg : String)
  | errorf (msg : String)
deriving DecidableEq

/-- Message carried by a Go error (what %s formatting of the error prints). -/
def GoError.msg : GoError → String
  | .sentinel _ m => m
  | .errorf m => m

/-- Sentinel ErrInvalidCompressionLevel (post-processor.go var block). -/
def ErrInvalidCompressionLevel : GoError :=
  .sentinel "ErrInvalidCompressionLevel"
    "Invalid compression level. Expected an integer from -1 to 9."

/-- Sentinel ErrWrongInputCount (post-processor.go var block). -/
def ErrWrongInputCount : GoError :=
  .sentinel "ErrWrongInputCount"
    "Can only have 1 input file when not using tar/zip"

/-- Constant pgzip.BestCompression of the pgzip package. -/
def pgzipBestCompression : Int := 9

/-- Constant pgzip.DefaultCompression of the pgzip package. -/
def pgzipDefaultCompression : Int := -1

/-- Default output path template installed by Configure when none is given. -/
def defaultOutputPath : String :=
  "packer_\x7b\x7b.BuildName\x7d\x7d_\x7b\x7b.BuilderType\x7d\x7d"

/-- Happy path of (p *PostProcessor) Configure: default the output path, clamp
the compression level above pgzip.BestCompression down to it, replace -1 or 0
by pgzip.DefaultCompression, then run detectFromFilename.  Config decoding,
GOMAXPROCS seeding and template validation are external and modelled as
succeeding. -/
def configure (c : Config) : Config :=
  let c1 := if c.OutputPath = "" then { c with OutputPath := defaultOutputPath } else c
  let c2 := if c1.CompressionLevel > pgzipBestCompression
            then { c1 with CompressionLevel := pgzipBestCompression } else c1
  let c3 := if c2.CompressionLevel = -1 ∨ c2.CompressionLevel = 0
            then { c2 with CompressionLevel := pgzipDefaultCompression } else c2
  detectFromFilename c3

/-- WriterConfig of the bzip2 package: only the Level field matters here. -/
structure WriterConfig where
  Level : Int
deriving DecidableEq

/-- Abstract constructed writer chain: the raw output file possibly wrapped by
one compression writer, remembering exactly the parameters the post-processor
passed to the library constructor. -/
inductive Writer where
  | file (path : String)
  | bgzfWriter (inner : Writer) (level : Int)
  | bzip2Writer (inner : Writer) (cfg : WriterConfig)
  | lz4Writer (inner : Writer) (headerLevel : Option Int)
  | xzWriter (inner : Writer)
  | pgzipWriter (inner : Writer) (level : Int)
deriving DecidableEq

/-- Modelled from the spec: pgzip.NewWriterLevel of the external klauspost
pgzip library, which rejects levels outside the conventional gzip range -1..9
with its own raw error. -/
def pgzipNewWriterLevel (output : Writer) (level : Int) : Except GoError Writer :=
  if level < -1 ∨ level > 9 then
    .error (.errorf ("gzip: invalid compression level: " ++ toString level))
  else
    .ok (.pgzipWriter output level)

/-- Modelled from the spec: bgzf.NewWriterLevel of the external biogo bgzf
library, which rejects levels outside the conventional gzip range -1..9 with
its own raw error (the parallelism argument is environmental and omitted). -/
def bgzfNewWriterLevel (output : Writer) (level : Int) : Except GoError Writer :=
  if level < -1 ∨ level > 9 then
    .error (.errorf ("bgzf: invalid compression level: " ++ toString level))
  else
    .ok (.bgzfWriter output level)

/-- Modelled from the spec: bzip2.NewWriter of the external dsnet bzip2
library; codecs differ in accepted ranges, and bzip2 accepts levels 1..9
(9 being its maximum), rejecting others with its own raw error. -/
def bzip2NewWriter (output : Writer) (cfg : WriterConfig) : Except GoError Writer :=
  if cfg.Level < 1 ∨ cfg.Level > 9 then
    .error (.errorf "bzip2: invalid compression level")
  else
    .ok (.bzip2Writer output cfg)

/-- Modelled from the spec: xz.NewWriter of the external ulikunitz xz library;
it takes no compression level and the spec records no failure mode for it. -/
def xzNewWriter (output : Writer) : Except GoError Writer :=
  .ok (.xzWriter output)

/-- WriterConfig that makeBZIP2Writer hands to bzip2.NewWriter: default Level 9
(highest compression), overridden by the caller level only when positive. -/
def bzip2ConfigFor (compressionLevel : Int) : WriterConfig :=
  let bzipCFG : WriterConfig := { Level := 9 }
  if compressionLevel > 0 then { bzipCFG with Level := compressionLevel } else bzipCFG

/-- Translation of makeBZIP2Writer: build the WriterConfig, call the library,
and pass any library error through raw. -/
def makeBZIP2Writer (output : Writer) (compressionLevel : Int) : Except GoError Writer :=
  bzip2NewWriter output (bzip2ConfigFor compressionLevel)

/-- Translation of makeBGZFWriter: any library error is replaced by the
sentinel ErrInvalidCompressionLevel. -/
def makeBGZFWriter (output : Writer) (compressionLevel : Int) : Except GoError Writer :=
  match bgzfNewWriterLevel output compressionLevel with
  | .error _ => .error ErrInvalidCompressionLevel
  | .ok w => .ok w

/-- Translation of makeLZ4Writer: default writer, with the header compression
level overridden only when the caller level is positive; never fails. -/
def makeLZ4Writer (output : Writer) (compressionLevel : Int) : Except GoError Writer :=
  let lzwriter := Writer.lz4Writer output none
  let lzwriter := if compressionLevel > 0
                  then Writer.lz4Writer output (some compressionLevel) else lzwriter
  .ok lzwriter

/-- Translation of makeXZWriter: no compression-level parameter at all. -/
def makeXZWriter (output : Writer) : Except GoError Writer :=
  xzNewWriter output

/-- Translation of makePgzipWriter: any library error is replaced by the
sentinel ErrInvalidCompressionLevel (SetConcurrency is environmental). -/
def makePgzipWriter (output : Writer) (compressionLevel : Int) : Except GoError Writer :=
  match pgzipNewWriterLevel output compressionLevel with
  | .error _ => .error ErrInvalidCompressionLevel
  | .ok w => .ok w

/-- Externally visible effects of PostProcess, in program order. -/
inductive Event where
  | mkdirAllDirOf (target : String)
  | createFile (path : String)
  | makeWriter (algorithm : String) (level : Option Int)
  | tarFiles (files : List String)
  | zipFiles (files : List String)
  | openInput (path : String)
  | copyToOutput (path : String)
deriving DecidableEq

/-- Result of a PostProcess run: the ordered effect trace, the sink handed to
the archiving stage when construction got that far, and the final outcome. -/
structure ProcResult where
  events : List Event
  output : Option Writer
  result : Except GoError String
deriving DecidableEq

/-- Go fmt %v rendering of a string slice: elements space-separated in
brackets. -/
def goSliceRepr (files : List String) : String :=
  "[" ++ String.intercalate " " files ++ "]"

/-- Writer-construction switch of PostProcess (switch p.config.Algorithm):
returns the construction events and either the composed output writer or the
error created with errTmpl = "error creating %s writer: %s"; for an unknown
algorithm (including the empty string) the raw output file is used directly.
The xz case passes no level to its factory. -/
def makeOutput (config : Config) (outputFile : Writer) :
    List Event × Except GoError Writer :=
  if config.Algorithm = "bgzf" then
    ([Event.makeWriter "bgzf" (some config.CompressionLevel)],
      match makeBGZFWriter outputFile config.CompressionLevel with
      | .error e => .error (.errorf ("error creating bgzf writer: " ++ e.msg))
      | .ok w => .ok w)
  else if config.Algorithm = "bzip2" then
    ([Event.makeWriter "bzip2" (some config.CompressionLevel)],
      match makeBZIP2Writer outputFile config.CompressionLevel with
      | .error e => .error (.errorf ("error creating bzip2 writer: " ++ e.msg))
      | .ok w => .ok w)
  else if config.Algorithm = "lz4" then
    ([Event.makeWriter "lz4" (some config.CompressionLevel)],
      match makeLZ4Writer outputFile config.CompressionLevel with
      | .error e => .error (.errorf ("error creating lz4 writer: " ++ e.msg))
      | .ok w => .ok w)
  else if config.Algorithm = "xz" then
    ([Event.makeWriter "xz" none],
      match makeXZWriter outputFile with
      | .error e => .error (.errorf ("error creating xz writer: " ++ e.msg))
      | .ok w => .ok w)
  else if config.Algorithm = "pgzip" then
    ([Event.makeWriter "pgzip" (some config.CompressionLevel)],
      match makePgzipWriter outputFile config.CompressionLevel with
      | .error e => .error (.errorf ("error creating pgzip writer: " ++ e.msg))
      | .ok w => .ok w)
  else
    ([], .ok outputFile)

/-- Happy-IO-path embedding of (p *PostProcessor) PostProcess: interpolation of
the output path is external (modelled as the identity), the directory and the
output file are created, the compression writer is constructed, and then the
archive switch runs: tar and zip archive all input files; any other Archive
value (the no-archive default branch) first checks that exactly one input file
is present, returning a freshly formatted error otherwise, then opens and
copies the single input.  OS calls are modelled as succeeding; the trace
records them in program order. -/
def postProcess (config : Config) (files : List String) : ProcResult :=
  let target := config.OutputPath
  let ev0 := [Event.mkdirAllDirOf target, Event.createFile target]
  match makeOutput config (Writer.file target) with
  | (evW, .error e) =>
    { events := ev0 ++ evW, output := none, result := .error e }
  | (evW, .ok output) =>
    if config.Archive = "tar" then
      { events := ev0 ++ evW ++ [Event.tarFiles files],
        output := some output, result := .ok target }
    else if config.Archive = "zip" then
      { events := ev0 ++ evW ++ [Event.zipFiles files],
        output := some output, result := .ok target }
    else
      if files.length ≠ 1 then
        { events := ev0 ++ evW, output := some output,
          result := .error (.errorf
            ("Can only have 1 input file when not using tar/zip. Found "
              ++ toString files.length ++ " files: " ++ goSliceRepr files)) }
      else
        let archiveFile := files.headD ""
        { events := ev0 ++ evW ++ [Event.openInput archiveFile, Event.copyToOutput archiveFile],
          output := some output, result := .ok target }

/-! ### Supporting lemmas -/

theorem detectFromFilename_level (c : Config) :
    (detectFromFilename c).CompressionLevel = c.CompressionLevel := by
  unfold detectFromFilename
  dsimp only
  repeat' split
  all_goals simp

theorem detect_pair_congr (c1 c2 : Config)
    (hA : c1.Archive = c2.Archive) (hAl : c1.Algorithm = c2.Algorithm)
    (ht : scanTokens (scanString c1.OutputPath c1.Format).data
        = scanTokens (scanString c2.OutputPath c2.Format).data) :
    ((detectFromFilename c1).Archive, (detectFromFilename c1).Algorithm)
      = ((detectFromFilename c2).Archive, (detectFromFilename c2).Algorithm) := by
  obtain ⟨o1, f1, l1, A1, G1⟩ := c1
  obtain ⟨o2, f2, l2, A2, G2⟩ := c2
  simp only at hA hAl ht
  subst hA hAl
  unfold detectFromFilename
  dsimp only
  rw [ht]
  repeat' split
  all_goals simp

theorem configure_as_detect (c : Config) :
    configure c = detectFromFilename
      { OutputPath := if c.OutputPath = "" then defaultOutputPath else c.OutputPath,
        Format := c.Format,
        CompressionLevel :=
          if (if 9 < c.CompressionLevel then (9 : Int) else c.CompressionLevel) = -1
              ∨ (if 9 < c.CompressionLevel then (9 : Int) else c.CompressionLevel) = 0
          then -1 else if 9 < c.CompressionLevel then (9 : Int) else c.CompressionLevel,
        Archive := c.Archive, Algorithm := c.Algorithm } := by
  obtain ⟨o, f, l, A, G⟩ := c
  unfold configure pgzipBestCompression pgzipDefaultCompression
  dsimp only
  rcases eq_or_ne o "" with ho | ho <;> simp only [ho] <;> congr 1 <;>
    simp <;> split_ifs <;> simp_all

theorem configure_level_eq (c : Config) :
    (configure c).CompressionLevel =
      if (if 9 < c.CompressionLevel then (9 : Int) else c.CompressionLevel) = -1
          ∨ (if 9 < c.CompressionLevel then (9 : Int) else c.CompressionLevel) = 0
      then -1 else if 9 < c.CompressionLevel then (9 : Int) else c.CompressionLevel := by
  rw [configure_as_detect, detectFromFilename_level]

theorem makeOutput_events_only_writers (config : Config) (w : Writer) :
    ∀ e ∈ (makeOutput config w).1, ∃ a l, e = Event.makeWriter a l := by
  unfold makeOutput
  repeat' split
  all_goals simp

theorem postProcess_bzip2_level_event (config : Config) (files : List String)
    (hA : config.Algorithm = "bzip2") :
    Event.makeWriter "bzip2" (some config.CompressionLevel)
      ∈ (postProcess config files).events := by
  unfold postProcess makeOutput
  rw [hA]
  simp only [String.reduceEq, reduceIte]
  rcases hw : makeBZIP2Writer (Writer.file config.OutputPath) config.CompressionLevel with e | w
  all_goals dsimp only
  all_goals repeat' split
  all_goals simp

/-! ### Claims -/

/-- C1: the filename classifier maps "x.tar" to (tar, none), "x.tar.gz" to
(tar, pgzip), "x.tar.zip" to (zip, none), "x.zip" to (zip, none), "x.lz4" to
(none, lz4) and "x.unknownext" to (tar, pgzip); and every name with no
dot-delimited suffix token classifies as (tar, pgzip).  The empty string is the
Go zero value standing for none. -/
theorem classify_filename_table :
    classify "x.tar" "" = ("tar", "") ∧
    classify "x.tar.gz" "" = ("tar", "pgzip") ∧
    classify "x.tar.zip" "" = ("zip", "") ∧
    classify "x.zip" "" = ("zip", "") ∧
    classify "x.lz4" "" = ("", "lz4") ∧
    classify "x.unknownext" "" = ("tar", "pgzip") ∧
    ∀ name : String, scanTokens name.data = [] → classify name "" = ("tar", "pgzip") := by
  refine ⟨by decide, by decide, by decide, by decide, by decide, by decide, ?_⟩
  intro name h
  simp [classify, detectFromFilename, scanString, h]

/-- Witness for C1: the name "out" has no dot-delimited suffix token and
classifies as (tar, pgzip). -/
theorem classify_filename_table_witness : classify "out" "" = ("tar", "pgzip") :=
  classify_filename_table.2.2.2.2.2.2 "out" (by decide)

/-- C5: whenever the final dot-delimited token of the scanned name is "zip" or
"tar", the classifier returns that token as the archive kind and leaves the
compression kind unset (none, the empty string); in particular "x.tar.zip"
classifies as (zip, none), the final suffix overriding the "tar" hint. -/
theorem classify_terminal_archive_suffix :
    (∀ (out fmtStr last : String),
        (scanTokens (scanString out fmtStr).data).getLast? = some last →
        (last = "zip" ∨ last = "tar") →
        classify out fmtStr = (last, "")) ∧
    classify "x.tar.zip" "" = ("zip", "") := by
  refine ⟨?_, by decide⟩
  intro out fmtStr last h hl
  have hne : scanTokens (scanString out fmtStr).data ≠ [] := by
    intro h0
    rw [h0] at h
    simp at h
  have hlast : (scanTokens (scanString out fmtStr).data).getLastD "" = last := by
    rw [List.getLastD_eq_getLast?, h]
    rfl
  unfold classify detectFromFilename
  dsimp only
  rw [if_neg hne, hlast, if_pos hl]
  repeat' split
  all_goals simp

/-- Witness for C5: the name "a.zip" ends in the token "zip" and classifies as
(zip, none). -/
theorem classify_terminal_archive_suffix_witness : classify "a.zip" "" = ("zip", "") :=
  classify_terminal_archive_suffix.1 "a.zip" "" "zip" (by decide) (Or.inl rfl)

/-- C8: with a non-empty explicit format the classifier scans the output path
concatenated with a literal dot and the format string, so classification with
an explicit format equals classification of that combined string with no
explicit format; with an empty format the output path alone is scanned. -/
theorem classify_combined_string (out fmtStr : String) (h : fmtStr ≠ "") :
    classify out fmtStr = classify (out ++ "." ++ fmtStr) "" := by
  unfold classify
  dsimp only
  exact detect_pair_congr
    { OutputPath := out, Format := fmtStr, CompressionLevel := 0, Archive := "", Algorithm := "" }
    { OutputPath := out ++ "." ++ fmtStr, Format := "", CompressionLevel := 0,
      Archive := "", Algorithm := "" }
    rfl rfl (by simp [scanString, h])

/-- Witness for C8: classifying "disk" with explicit format "lz4" equals
classifying "disk.lz4" with no explicit format. -/
theorem classify_combined_string_witness :
    classify "disk" "lz4" = classify ("disk" ++ "." ++ "lz4") "" :=
  classify_combined_string "disk" "lz4" (by decide)

/-- C4: Configure normalizes the compression level: a requested level of 15 is
clamped, leaving the run identical to a request of the maximum accepted level
9 (the resulting configurations are equal, and the stored level is the
clamped 9, not the default); requesting 0 or -1 leaves the run identical to
requesting the library default pgzip.DefaultCompression = -1; and 0 is never
kept as the store-uncompressed level 0. -/
theorem configure_level_normalization :
    (∀ c : Config, configure { c with CompressionLevel := 15 }
        = configure { c with CompressionLevel := 9 }) ∧
    (∀ c : Config, (configure { c with CompressionLevel := 15 }).CompressionLevel = 9) ∧
    (∀ c : Config, configure { c with CompressionLevel := 0 }
        = configure { c with CompressionLevel := pgzipDefaultCompression }) ∧
    (∀ c : Config, (configure { c with CompressionLevel := 0 }).CompressionLevel
        = pgzipDefaultCompression) ∧
    (∀ c : Config, (configure { c with CompressionLevel := 0 }).CompressionLevel ≠ 0) := by
  refine ⟨?_, ?_, ?_, ?_, ?_⟩
  all_goals intro c
  · rw [configure_as_detect, configure_as_detect]
    norm_num
  · rw [configure_level_eq]
    norm_num
  · rw [configure_as_detect, configure_as_detect]
    norm_num [pgzipDefaultCompression]
  · rw [configure_level_eq]
    norm_num [pgzipDefaultCompression]
  · rw [configure_level_eq]
    norm_num

/-- C6 counterexample: the claim asserts no upper clamp is enforced anywhere in
the pipeline for bzip2, but with a requested level of 15 and detected bzip2
compression the pipeline (Configure, then the bzip2 writer factory) hands the
library the clamped level 9, not 15. -/
theorem bzip2_pipeline_clamped_cex :
    (bzip2ConfigFor (configure
        { OutputPath := "disk.bzip2", Format := "", CompressionLevel := 15,
          Archive := "", Algorithm := "" }).CompressionLevel).Level = 9 ∧
    (configure
        { OutputPath := "disk.bzip2", Format := "", CompressionLevel := 15,
          Archive := "", Algorithm := "" }).Algorithm = "bzip2" ∧
    (9 : Int) ≠ 15 := by decide

/-- C6 (amended): makeBZIP2Writer passes the library a WriterConfig whose
level is 9 (the maximum) whenever the caller-supplied level is at most 0 and
the caller level verbatim otherwise, with no upper clamp in the factory
itself; however the pipeline does clamp bzip2 levels, because Configure bounds
the stored level by 9 before dispatch, for bzip2 like every other algorithm. -/
theorem makeBZIP2Writer_level (lvl : Int) :
    (lvl ≤ 0 → (bzip2ConfigFor lvl).Level = 9) ∧
    (0 < lvl → (bzip2ConfigFor lvl).Level = lvl) ∧
    (∀ out : Writer, makeBZIP2Writer out lvl = bzip2NewWriter out (bzip2ConfigFor lvl)) ∧
    (∀ c : Config, (bzip2ConfigFor
        (configure { c with CompressionLevel := lvl }).CompressionLevel).Level ≤ 9) := by
  refine ⟨?_, ?_, fun _ => rfl, ?_⟩
  · intro h
    unfold bzip2ConfigFor
    rw [if_neg (by omega)]
  · intro h
    unfold bzip2ConfigFor
    rw [if_pos h]
  · intro c
    rw [configure_level_eq]
    unfold bzip2ConfigFor
    dsimp only
    split_ifs <;> first | omega | simp_all

/-- Witness for C6 (amended): a caller level of -5 yields library level 9, a
caller level of 7 is used verbatim, and a pipeline request of 15 stays below
the bound. -/
theorem makeBZIP2Writer_level_witness :
    (bzip2ConfigFor (-5)).Level = 9 ∧ (bzip2ConfigFor 7).Level = 7 ∧
    (bzip2ConfigFor (configure
        { OutputPath := "disk.bzip2", Format := "", CompressionLevel := 15,
          Archive := "", Algorithm := "" }).CompressionLevel).Level ≤ 9 :=
  ⟨(makeBZIP2Writer_level (-5)).1 (by decide),
   (makeBZIP2Writer_level 7).2.1 (by decide),
   (makeBZIP2Writer_level 15).2.2.2
     { OutputPath := "disk.bzip2", Format := "", CompressionLevel := 15,
       Archive := "", Algorithm := "" }⟩

/-- C7: whenever the underlying codec constructor rejects a level, the pgzip
and bgzf writer factories return exactly the sentinel
ErrInvalidCompressionLevel, never the raw library error. -/
theorem writer_factories_uniform_error : ∀ (out : Writer) (level : Int),
    (∀ e, pgzipNewWriterLevel out level = Except.error e →
        makePgzipWriter out level = Except.error ErrInvalidCompressionLevel) ∧
    (∀ e, bgzfNewWriterLevel out level = Except.error e →
        makeBGZFWriter out level = Except.error ErrInvalidCompressionLevel) := by
  intro out level
  constructor
  · intro e h
    simp [makePgzipWriter, h]
  · intro e h
    simp [makeBGZFWriter, h]

/-- Witness for C7: level 100 is rejected by both codecs and both factories
return the sentinel. -/
theorem writer_factories_uniform_error_witness :
    makePgzipWriter (Writer.file "o") 100 = Except.error ErrInvalidCompressionLevel ∧
    makeBGZFWriter (Writer.file "o") 100 = Except.error ErrInvalidCompressionLevel :=
  ⟨(writer_factories_uniform_error (Writer.file "o") 100).1
      (GoError.errorf ("gzip: invalid compression level: " ++ toString (100 : Int)))
      (by decide),
   (writer_factories_uniform_error (Writer.file "o") 100).2
      (GoError.errorf ("bgzf: invalid compression level: " ++ toString (100 : Int)))
      (by decide)⟩

/-- C9: for the xz algorithm the compression level has no effect: makeXZWriter
takes no level parameter, and two PostProcess runs differing only in the
stored compression level produce identical traces, writers and results. -/
theorem xz_level_ignored : ∀ (config : Config) (files : List String) (l1 l2 : Int),
    config.Algorithm = "xz" →
    postProcess { config with CompressionLevel := l1 } files
      = postProcess { config with CompressionLevel := l2 } files := by
  intro config files l1 l2 h
  obtain ⟨o, f, l, A, G⟩ := config
  simp only at h
  subst h
  unfold postProcess makeOutput
  simp only [String.reduceEq, reduceIte]

/-- Witness for C9: with detected xz compression, levels 1 and 9 give the same
run. -/
theorem xz_level_ignored_witness :
    postProcess { OutputPath := "o.xz", Format := "", CompressionLevel := 1,
                  Archive := "", Algorithm := "xz" } ["a"]
      = postProcess { OutputPath := "o.xz", Format := "", CompressionLevel := 9,
                      Archive := "", Algorithm := "xz" } ["a"] :=
  xz_level_ignored
    { OutputPath := "o.xz", Format := "", CompressionLevel := 1,
      Archive := "", Algorithm := "xz" } ["a"] 1 9 rfl

/-- C2 counterexample: with no archive kind and two input files PostProcess
fails, but the returned error is a freshly formatted error carrying the file
count and list, not the sentinel value ErrWrongInputCount, so the claim that
the ErrWrongInputCount error value is returned fails at this input. -/
theorem wrong_count_not_sentinel_cex :
    (postProcess
        { OutputPath := "out", Format := "", CompressionLevel := -1,
          Archive := "", Algorithm := "" } ["a", "b"]).result
      = Except.error (GoError.errorf
          "Can only have 1 input file when not using tar/zip. Found 2 files: [a b]") ∧
    GoError.errorf "Can only have 1 input file when not using tar/zip. Found 2 files: [a b]"
      ≠ ErrWrongInputCount := by decide

/-- C2 (amended): when the archive kind is neither tar nor zip and the input
count differs from 1 (and writer construction succeeds), PostProcess fails
with a freshly formatted error whose message extends the message of
ErrWrongInputCount with the file count and list; the returned error is not the
ErrWrongInputCount sentinel value itself. -/
theorem postProcess_wrong_count_error (config : Config) (files : List String)
    (hT : config.Archive ≠ "tar") (hZ : config.Archive ≠ "zip")
    (hn : files.length ≠ 1)
    (hw : ∃ w, (makeOutput config (Writer.file config.OutputPath)).2 = Except.ok w) :
    (postProcess config files).result
      = Except.error (GoError.errorf (ErrWrongInputCount.msg ++ ". Found "
          ++ toString files.length ++ " files: " ++ goSliceRepr files)) ∧
    (postProcess config files).result ≠ Except.error ErrWrongInputCount := by
  obtain ⟨w, hw⟩ := hw
  rcases hmo : makeOutput config (Writer.file config.OutputPath) with ⟨evW, res⟩
  rw [hmo] at hw
  dsimp only at hw
  subst hw
  unfold postProcess
  dsimp only
  rw [hmo]
  dsimp only
  rw [if_neg hT, if_neg hZ, if_pos hn]
  exact ⟨rfl, by simp [ErrWrongInputCount]⟩

/-- Witness for C2 (amended): the no-archive, no-compression configuration
with two input files returns the formatted wrong-count error. -/
theorem postProcess_wrong_count_error_witness :
    (postProcess
        { OutputPath := "out", Format := "", CompressionLevel := -1,
          Archive := "", Algorithm := "" } ["a", "b"]).result
      = Except.error (GoError.errorf (ErrWrongInputCount.msg ++ ". Found "
          ++ toString (["a", "b"] : List String).length ++ " files: "
          ++ goSliceRepr ["a", "b"])) ∧
    (postProcess
        { OutputPath := "out", Format := "", CompressionLevel := -1,
          Archive := "", Algorithm := "" } ["a", "b"]).result
      ≠ Except.error ErrWrongInputCount :=
  postProcess_wrong_count_error
    { OutputPath := "out", Format := "", CompressionLevel := -1,
      Archive := "", Algorithm := "" } ["a", "b"]
    (by decide) (by decide) (by decide) ⟨Writer.file "out", by decide⟩

/-- C3 counterexample: with detected pgzip compression, no archive kind and
two input files, PostProcess returns the count-mismatch error, yet its trace
shows the output file was created and the pgzip compression writer was
constructed first, so the claim that the error is returned without creating
the output file or constructing a compression writer fails at this input. -/
theorem count_checked_after_sink_cex :
    (postProcess
        { OutputPath := "out", Format := "", CompressionLevel := -1,
          Archive := "", Algorithm := "pgzip" } ["a", "b"]).result
      = Except.error (GoError.errorf
          "Can only have 1 input file when not using tar/zip. Found 2 files: [a b]") ∧
    Event.createFile "out" ∈
      (postProcess
        { OutputPath := "out", Format := "", CompressionLevel := -1,
          Archive := "", Algorithm := "pgzip" } ["a", "b"]).events ∧
    Event.makeWriter "pgzip" (some (-1)) ∈
      (postProcess
        { OutputPath := "out", Format := "", CompressionLevel := -1,
          Archive := "", Algorithm := "pgzip" } ["a", "b"]).events := by decide

/-- C3 (amended): in no-archive mode with an input count different from 1 (and
writer construction succeeding), the count mismatch is detected only after the
output file has been created — the trace contains the creation event, so an
(empty) output file is produced — but before any input file is opened or
copied: PostProcess returns a formatted count-mismatch error and the trace
contains no input-open and no copy event. -/
theorem postProcess_count_after_create (config : Config) (files : List String)
    (hT : config.Archive ≠ "tar") (hZ : config.Archive ≠ "zip")
    (hn : files.length ≠ 1)
    (hw : ∃ w, (makeOutput config (Writer.file config.OutputPath)).2 = Except.ok w) :
    Event.createFile config.OutputPath ∈ (postProcess config files).events ∧
    (∀ p, Event.openInput p ∉ (postProcess config files).events) ∧
    (∀ p, Event.copyToOutput p ∉ (postProcess config files).events) ∧
    ∃ m, (postProcess config files).result = Except.error (GoError.errorf m) := by
  obtain ⟨w, hw⟩ := hw
  rcases hmo : makeOutput config (Writer.file config.OutputPath) with ⟨evW, res⟩
  have honly := makeOutput_events_only_writers config (Writer.file config.OutputPath)
  rw [hmo] at hw honly
  dsimp only at hw honly
  subst hw
  unfold postProcess
  dsimp only
  rw [hmo]
  dsimp only
  rw [if_neg hT, if_neg hZ, if_pos hn]
  refine ⟨by simp, ?_, ?_, ⟨_, rfl⟩⟩
  · intro p hp
    simp only [ProcResult.events, List.mem_append, List.mem_cons, List.mem_singleton] at hp
    rcases hp with (h | h | h) | h
    · exact Event.noConfusion h
    · exact Event.noConfusion h
    · exact absurd h (List.not_mem_nil _)
    · obtain ⟨a, l, he⟩ := honly _ h
      exact Event.noConfusion he
  · intro p hp
    simp only [ProcResult.events, List.mem_append, List.mem_cons, List.mem_singleton] at hp
    rcases hp with (h | h | h) | h
    · exact Event.noConfusion h
    · exact Event.noConfusion h
    · exact absurd h (List.not_mem_nil _)
    · obtain ⟨a, l, he⟩ := honly _ h
      exact Event.noConfusion he

/-- Witness for C3 (amended): the pgzip no-archive configuration with two
inputs creates the output file, opens no input, copies nothing and errors. -/
theorem postProcess_count_after_create_witness :
    Event.createFile "out" ∈
      (postProcess
        { OutputPath := "out", Format := "", CompressionLevel := -1,
          Archive := "", Algorithm := "pgzip" } ["a", "b"]).events ∧
    (∀ p, Event.openInput p ∉
      (postProcess
        { OutputPath := "out", Format := "", CompressionLevel := -1,
          Archive := "", Algorithm := "pgzip" } ["a", "b"]).events) ∧
    (∀ p, Event.copyToOutput p ∉
      (postProcess
        { OutputPath := "out", Format := "", CompressionLevel := -1,
          Archive := "", Algorithm := "pgzip" } ["a", "b"]).events) ∧
    ∃ m, (postProcess
        { OutputPath := "out", Format := "", CompressionLevel := -1,
          Archive := "", Algorithm := "pgzip" } ["a", "b"]).result
      = Except.error (GoError.errorf m) :=
  postProcess_count_after_create
    { OutputPath := "out", Format := "", CompressionLevel := -1,
      Archive := "", Algorithm := "pgzip" } ["a", "b"]
    (by decide) (by decide) (by decide)
    ⟨Writer.pgzipWriter (Writer.file "out") (-1), by decide⟩

/-- C10: after Configure the stored compression level is at most 9 and never
0: an input of 0 or -1 becomes the default sentinel -1, a level in 1..9 is
kept, a negative level below -1 is kept unchanged, and a level above 9 is
clamped to 9; and the normalized level is what PostProcess hands to the bzip2
factory when bzip2 is the detected algorithm, since the clamp runs once before
algorithm dispatch. -/
theorem configure_level_invariant : ∀ c : Config,
    (configure c).CompressionLevel ≤ 9 ∧
    (configure c).CompressionLevel ≠ 0 ∧
    ((c.CompressionLevel = 0 ∨ c.CompressionLevel = -1) →
      (configure c).CompressionLevel = -1) ∧
    (1 ≤ c.CompressionLevel → c.CompressionLevel ≤ 9 →
      (configure c).CompressionLevel = c.CompressionLevel) ∧
    (c.CompressionLevel < -1 → (configure c).CompressionLevel = c.CompressionLevel) ∧
    (9 < c.CompressionLevel → (configure c).CompressionLevel = 9) ∧
    ∀ files : List String, (configure c).Algorithm = "bzip2" →
      Event.makeWriter "bzip2" (some ((configure c).CompressionLevel))
        ∈ (postProcess (configure c) files).events := by
  intro c
  refine ⟨?_, ?_, ?_, ?_, ?_, ?_, ?_⟩
  · rw [configure_level_eq]; split_ifs <;> omega
  · rw [configure_level_eq]; split_ifs <;> omega
  · intro h; rw [configure_level_eq]; split_ifs <;> omega
  · intro h1 h2; rw [configure_level_eq]; split_ifs <;> omega
  · intro h; rw [configure_level_eq]; split_ifs <;> omega
  · intro h; rw [configure_level_eq]; split_ifs <;> first | omega | simp_all
  · intro files hA
    exact postProcess_bzip2_level_event (configure c) files hA

/-- Witness for C10: a requested level of 15 with detected bzip2 compression
is stored as 9 and handed to the bzip2 factory by PostProcess. -/
theorem configure_level_invariant_witness :
    (configure
        { OutputPath := "disk.bzip2", Format := "", CompressionLevel := 15,
          Archive := "", Algorithm := "" }).CompressionLevel = 9 ∧
    Event.makeWriter "bzip2" (some ((configure
        { OutputPath := "disk.bzip2", Format := "", CompressionLevel := 15,
          Archive := "", Algorithm := "" }).CompressionLevel))
      ∈ (postProcess (configure
          { OutputPath := "disk.bzip2", Format := "", CompressionLevel := 15,
            Archive := "", Algorithm := "" }) ["a"]).events :=
  ⟨(configure_level_invariant
      { OutputPath := "disk.bzip2", Format := "", CompressionLevel := 15,
        Archive := "", Algorithm := "" }).2.2.2.2.2.1 (by decide),
   (configure_level_invariant
      { OutputPath := "disk.bzip2", Format := "", CompressionLevel := 15,
        Archive := "", Algorithm := "" }).2.2.2.2.2.2 ["a"] (by decide)⟩

end Compress
